import Mathlib

/-!
Verification development for the SlipNet slipstream client/server core:
the per-stream flow-control engine, the client stream lifecycle state
machine, the acceptor credit limiter, and the client runtime loop's
error handling, poll pacing, idle throttling and reconnect back-off.

Shallow embedding: Rust machine integers (`u64`, `usize`) are modelled as
`Nat`; the quantities involved (byte counts, counters, microsecond
timestamps) never approach `2^64` in the program, and every source
operation used here is non-overflowing (`saturating_add`,
`saturating_sub`, bounded counters), so no modular reduction is needed.
External fallible calls (the picoquic FFI, tokio channels) are modelled
by explicit success flags passed as inputs.
-/

namespace SlipNet

/-! ## Flow-control engine (crate `slipstream-core`, `flow_control` module)

The `slipstream-core` crate is not part of the provided sources; only its
callers are.  The definitions below are therefore modelled from the spec
(§3 "Stream", §4.4 "Stream Engine"), with one refinement taken from the
repository's own test `remote_fin_keeps_local_read_open` (which requires
that a zero-length chunk enqueues nothing to the local writer): a call
with `n = 0` performs no state change. -/

/-- Per-stream flow-control state (spec §3 "Stream"). -/
structure FlowControlState where
  rx_bytes : Nat
  consumed_offset : Nat
  queued_bytes : Nat
  fin_offset : Option Nat
  discarding : Bool
  stop_sending_sent : Bool
deriving DecidableEq, Repr

/-- The all-zero initial flow-control state (`FlowControlState::default()`). -/
def initFlow : FlowControlState :=
  { rx_bytes := 0, consumed_offset := 0, queued_bytes := 0,
    fin_offset := none, discarding := false, stop_sending_sent := false }

/-- Modelled from the spec: `reserve_target_offset` of `slipstream-core`
(spec §4.4, step 3).  In multi-stream mode the caller passes
`reserve = 0` and exactly `rx - queued` is released; in single-stream
mode `max (rx - queued) (rx - reserve)` is released, clamped to
`fin_offset` when the fin offset is known. -/
def reserve_target_offset (rx queued : Nat) (fin_offset : Option Nat)
    (reserve : Nat) : Nat :=
  let base := rx - queued
  let tgt := if reserve = 0 then base else max base (rx - reserve)
  match fin_offset with
  | some f => min tgt f
  | none => tgt

/-- Result of one `handle_stream_receive` call (spec §4.4): normal
progress, back-pressure overflow (stream latched discarding but kept
registered), or a fatal hook failure (enqueue or consume failed). -/
inductive ReceiveResult
  | ok
  | overflow
  | fatal
deriving DecidableEq, Repr

/-- Effects emitted by one `handle_stream_receive` call: whether
`stop_sending` was issued and which offset (if any) was passed to the
`consume` hook. -/
structure ReceiveEffects where
  stopSending : Bool
  consumedTo : Option Nat
deriving DecidableEq, Repr

/-- Modelled from the spec: `handle_stream_receive` of `slipstream-core`
(spec §4.4 algorithm, §3 `discarding`, §7 "Protocol overflow").
`enqueueOk` and `consumeOk` stand for the outcome of the caller-supplied
`enqueue` and `consume` hooks.  A discarding stream counts further peer
bytes toward `consumed_offset` without buffering them; a chunk that
would push `queued_bytes` past `maxQueued` latches `discarding`, issues
`stop_sending` once and returns overflow; otherwise the chunk is
buffered and the consumed offset advanced per `reserve_target_offset`. -/
def handle_stream_receive (fl : FlowControlState) (n : Nat)
    (reserve maxQueued : Nat) (enqueueOk consumeOk : Bool) :
    FlowControlState × ReceiveEffects × ReceiveResult :=
  if n = 0 then
    (fl, { stopSending := false, consumedTo := none }, .ok)
  else if fl.discarding then
    let rx := fl.rx_bytes + n
    let tgt := reserve_target_offset rx fl.queued_bytes fl.fin_offset reserve
    if tgt > fl.consumed_offset then
      if consumeOk then
        ({ fl with rx_bytes := rx, consumed_offset := tgt },
         { stopSending := false, consumedTo := some tgt }, .ok)
      else
        ({ fl with rx_bytes := rx },
         { stopSending := false, consumedTo := some tgt }, .fatal)
    else
      ({ fl with rx_bytes := rx },
       { stopSending := false, consumedTo := none }, .ok)
  else if maxQueued < fl.queued_bytes + n then
    ({ fl with discarding := true, stop_sending_sent := true },
     { stopSending := true, consumedTo := none }, .overflow)
  else if ¬enqueueOk then
    ({ fl with rx_bytes := fl.rx_bytes + n, queued_bytes := fl.queued_bytes + n },
     { stopSending := false, consumedTo := none }, .fatal)
  else
    let rx := fl.rx_bytes + n
    let q := fl.queued_bytes + n
    let tgt := reserve_target_offset rx q fl.fin_offset reserve
    if tgt > fl.consumed_offset then
      if consumeOk then
        ({ fl with rx_bytes := rx, queued_bytes := q, consumed_offset := tgt },
         { stopSending := false, consumedTo := some tgt }, .ok)
      else
        ({ fl with rx_bytes := rx, queued_bytes := q },
         { stopSending := false, consumedTo := some tgt }, .fatal)
    else
      ({ fl with rx_bytes := rx, queued_bytes := q },
       { stopSending := false, consumedTo := none }, .ok)

/-- Run a sequence of peer chunks through `handle_stream_receive`,
counting how many `stop_sending` frames are issued along the way. -/
def runChunks (reserve maxQueued : Nat) (enqueueOk consumeOk : Bool) :
    FlowControlState → List Nat → FlowControlState × Nat
  | fl, [] => (fl, 0)
  | fl, n :: rest =>
      let r := handle_stream_receive fl n reserve maxQueued enqueueOk consumeOk
      let t := runChunks reserve maxQueued enqueueOk consumeOk r.1 rest
      (t.1, (if r.2.1.stopSending then 1 else 0) + t.2)

/-- Modelled from the spec: `consume_stream_data` of `slipstream-core`
(spec §5 "`consume(new_offset)` is strictly monotonic per stream; a
consume with a lower offset is silently ignored").  Returns the updated
consumed offset and `false` exactly when the consume hook was invoked
and failed. -/
def consume_stream_data (consumed newOffset : Nat) (consumeOk : Bool) :
    Nat × Bool :=
  if newOffset > consumed then
    if consumeOk then (newOffset, true) else (consumed, false)
  else
    (consumed, true)

/-! ## Client stream lifecycle
(crate `slipstream-client`, `streams.rs`)

`StreamRecvState`, `StreamSendState` and the per-stream record mirror
`ClientStream`; the tokio channels and picoquic handles are replaced by
success flags (`writeChannelOpen` stands for "the tcp write channel is
not closed", `hasDataRx` for `data_rx.is_some()`).  Events are handled
at the level of a single stream-table entry: `stepStream` returns the
final field values of the entry, a flag saying whether
`state.streams.remove(&stream_id)` ran, and the emitted side effects.
The constants `conn_reserve_bytes()` and `MAX_QUEUED_BYTES` live in
`slipstream-core` and are carried as parameters in `StreamCfg`. -/

/-- Receive half state of a client stream (`StreamRecvState`). -/
inductive StreamRecvState
  | Open
  | FinReceived
deriving DecidableEq, Repr

/-- Whether the receive half is closed (`StreamRecvState::is_closed`). -/
def StreamRecvState.is_closed : StreamRecvState → Bool
  | .FinReceived => true
  | .Open => false

/-- Send half state of a client stream (`StreamSendState`). -/
inductive StreamSendState
  | Open
  | Closing
  | FinQueued
deriving DecidableEq, Repr

/-- Whether the send half is closed (`StreamSendState::is_closed`). -/
def StreamSendState.is_closed : StreamSendState → Bool
  | .FinQueued => true
  | _ => false

/-- Whether a local fin may still be queued (`StreamSendState::can_queue_fin`). -/
def StreamSendState.can_queue_fin : StreamSendState → Bool
  | .Open => true
  | .Closing => true
  | .FinQueued => false

/-- One entry of the client stream table (`ClientStream`); channels and
counters are kept, tokio handles are abstracted to liveness flags. -/
structure ClientStream where
  writeChannelOpen : Bool
  hasDataRx : Bool
  tx_bytes : Nat
  recv_state : StreamRecvState
  send_state : StreamSendState
  flow : FlowControlState
deriving DecidableEq, Repr

/-- Per-call configuration: the client's `multi_stream_mode` flag and the
`slipstream-core` constants `conn_reserve_bytes()` and
`MAX_QUEUED_BYTES` (values not fixed by the provided sources). -/
structure StreamCfg where
  multiStream : Bool
  connReserveBytes : Nat
  maxQueuedBytes : Nat
deriving DecidableEq, Repr

/-- Reserve window actually passed to the engine
(`if multi_stream { 0 } else { conn_reserve_bytes() }`). -/
def StreamCfg.reserveBytes (c : StreamCfg) : Nat :=
  if c.multiStream then 0 else c.connReserveBytes

/-- Outcomes of the external calls an event handler makes:
`consumeOk` for `picoquic_stream_data_consumed`, `addToStreamOk` for
`picoquic_add_to_stream` (fin). -/
structure Hooks where
  consumeOk : Bool
  addToStreamOk : Bool
deriving DecidableEq, Repr

/-- Side effects of one stream event: whether `abort_stream_bidi` was
called, whether a `StreamWrite::Fin` was enqueued to the local TCP
writer, and whether the engine issued `stop_sending`. -/
structure StepEffects where
  abortSent : Bool
  finToWriter : Bool
  stopSending : Bool
deriving DecidableEq, Repr

/-- The events of the client stream lifecycle settled here: a peer
data/fin callback (`handle_stream_data`), the local-source-drained
command (`Command::StreamClosed`), the local-writer-progress command
(`Command::StreamWriteDrained`), and a peer reset / stop-sending
callback. -/
inductive StreamEvent
  | peerData (n : Nat) (fin : Bool)
  | streamClosed
  | writeDrained (bytes : Nat)
  | peerReset
deriving DecidableEq, Repr

/-- Entry-level translation of `handle_stream_data` (client
`streams.rs`): run the receive engine, then the fin branch, then the
final both-halves-closed removal check; a fatal engine result or a
failed fin enqueue aborts the stream.  Returns
(final entry value, removed-from-table flag, effects). -/
def handleStreamDataEntry (cfg : StreamCfg) (st : ClientStream) (fin : Bool)
    (n : Nat) (hooks : Hooks) : ClientStream × Bool × StepEffects :=
  let r := handle_stream_receive st.flow n cfg.reserveBytes cfg.maxQueuedBytes
      st.writeChannelOpen hooks.consumeOk
  let res := r.2.2
  -- `on_overflow` swaps `write_tx` for a fresh (always open) drain channel
  let st1 : ClientStream :=
    { st with flow := r.1,
              writeChannelOpen :=
                if res = ReceiveResult.overflow then true else st.writeChannelOpen }
  let reset1 := res = ReceiveResult.fatal
  let finDiscard := fin && st1.flow.discarding
  let finLive := fin && !st1.flow.discarding
  -- fin branch on a non-discarding stream: record fin_offset, enqueue fin
  let st2 :=
    if finLive then
      let stA :=
        if st1.flow.fin_offset = none then
          { st1 with flow := { st1.flow with fin_offset := some st1.flow.rx_bytes } }
        else st1
      if stA.recv_state = StreamRecvState.Open && stA.writeChannelOpen then
        { stA with recv_state := StreamRecvState.FinReceived }
      else stA
    else st1
  let finToWriter := finLive && st1.recv_state == StreamRecvState.Open
      && st1.writeChannelOpen
  let reset2 := reset1 ||
      (finLive && st1.recv_state == StreamRecvState.Open && !st1.writeChannelOpen)
  let removeFinal := !reset2 && !st2.flow.discarding
      && st2.recv_state.is_closed && st2.send_state.is_closed
      && st2.flow.queued_bytes == 0
  let removed := reset2 || finDiscard || removeFinal
  (st2, removed,
   { abortSent := reset2, finToWriter := finToWriter, stopSending := r.2.1.stopSending })

/-- Entry-level translation of `handle_command` for
`Command::StreamClosed` (client `streams.rs`): queue the local fin via
`picoquic_add_to_stream(.., fin=1)` when the send half can still accept
one; on success mark `FinQueued` and remove the entry if the receive
half is closed and nothing is queued; on failure abort and remove. -/
def streamClosedEntry (st : ClientStream) (hooks : Hooks) :
    ClientStream × Bool × StepEffects :=
  if st.send_state.can_queue_fin then
    if hooks.addToStreamOk then
      let st1 := { st with send_state := StreamSendState.FinQueued }
      let removed := st1.recv_state.is_closed && st1.flow.queued_bytes == 0
      (st1, removed, { abortSent := false, finToWriter := false, stopSending := false })
    else
      (st, true, { abortSent := true, finToWriter := false, stopSending := false })
  else
    (st, false, { abortSent := false, finToWriter := false, stopSending := false })

/-- Entry-level translation of `handle_command` for
`Command::StreamWriteDrained` (client `streams.rs`): a discarding stream
returns early; otherwise `queued_bytes` shrinks by the drained bytes,
in single-stream mode the consumed offset is re-announced through
`consume_stream_data` (a failure aborts and removes), and the entry is
removed when both halves are closed and the queue is empty. -/
def writeDrainedEntry (cfg : StreamCfg) (st : ClientStream) (bytes : Nat)
    (hooks : Hooks) : ClientStream × Bool × StepEffects :=
  if st.flow.discarding then
    (st, false, { abortSent := false, finToWriter := false, stopSending := false })
  else
    let q := st.flow.queued_bytes - bytes
    let st1 := { st with flow := { st.flow with queued_bytes := q } }
    if cfg.multiStream then
      let removed := st1.recv_state.is_closed && st1.send_state.is_closed && q == 0
      (st1, removed, { abortSent := false, finToWriter := false, stopSending := false })
    else
      let tgt := reserve_target_offset st1.flow.rx_bytes q st1.flow.fin_offset
          cfg.connReserveBytes
      let c := consume_stream_data st1.flow.consumed_offset tgt hooks.consumeOk
      let st2 := { st1 with flow := { st1.flow with consumed_offset := c.1 } }
      if c.2 then
        let removed := st2.recv_state.is_closed && st2.send_state.is_closed && q == 0
        (st2, removed, { abortSent := false, finToWriter := false, stopSending := false })
      else
        (st2, true, { abortSent := true, finToWriter := false, stopSending := false })

/-- One client stream event, dispatched to the translations above; a
peer reset / stop-sending callback unconditionally removes the entry
and echoes a reset. -/
def stepStream (cfg : StreamCfg) (st : ClientStream) (ev : StreamEvent)
    (hooks : Hooks) : ClientStream × Bool × StepEffects :=
  match ev with
  | .peerData n fin => handleStreamDataEntry cfg st fin n hooks
  | .streamClosed => streamClosedEntry st hooks
  | .writeDrained bytes => writeDrainedEntry cfg st bytes hooks
  | .peerReset =>
      (st, true, { abortSent := false, finToWriter := false, stopSending := false })

/-- The removal condition of spec §8 property 4: both halves closed and
nothing queued toward the local sink. -/
def closedDrained (st : ClientStream) : Bool :=
  st.recv_state.is_closed && st.send_state.is_closed && st.flow.queued_bytes == 0

/-! ## Acceptor credit limiter
(client `streams.rs`, module `acceptor`)

`AcceptorLimiter` holds three atomics and a notifier.  The event loop
and the listener task run on one cooperative scheduler, so the
compare-and-swap loops are modelled by their sequential effect; the
`notify_one` call is recorded as a boolean effect. -/

/-- The limiter state `(max, used, generation)` (`AcceptorLimiter`). -/
structure AcceptorLimiter where
  max : Nat
  used : Nat
  generation : Nat
deriving DecidableEq, Repr

/-- A fresh limiter with the given initial credit (`AcceptorLimiter::new`). -/
def AcceptorLimiter.init (limit : Nat) : AcceptorLimiter :=
  { max := limit, used := 0, generation := 0 }

/-- Store a new peer MAX_STREAMS credit and wake waiters
(`AcceptorLimiter::set_max`). -/
def AcceptorLimiter.set_max (l : AcceptorLimiter) (limit : Nat) : AcceptorLimiter :=
  { l with max := limit }

/-- Reconnect reset (`AcceptorLimiter::reset`): bump the generation,
zero both `max` and `used`, wake waiters. -/
def AcceptorLimiter.reset (l : AcceptorLimiter) : AcceptorLimiter :=
  { generation := l.generation + 1, max := 0, used := 0 }

/-- A reservation handed out by `reserve()`: it captures the generation
current at the time of the increment (`AcceptorReservation`). -/
structure AcceptorReservation where
  generation : Nat
deriving DecidableEq, Repr

/-- Sequential effect of `AcceptorLimiter::reserve`: when `used < max`
the counter is incremented and a reservation carrying the current
generation is returned; otherwise the caller suspends on the notifier
(`none`). -/
def AcceptorLimiter.reserve (l : AcceptorLimiter) :
    Option (AcceptorLimiter × AcceptorReservation) :=
  if l.used < l.max then
    some ({ l with used := l.used + 1 }, { generation := l.generation })
  else
    none

/-- Whether a reservation is still current (`AcceptorReservation::is_fresh`). -/
def AcceptorLimiter.is_fresh (l : AcceptorLimiter) (r : AcceptorReservation) : Bool :=
  l.generation == r.generation

/-- Commit (`AcceptorReservation::commit`): succeeds iff the generation
still matches; the slot is kept either way (committed slots are returned
to the peer only through later MAX_STREAMS credit). -/
def AcceptorLimiter.commit (l : AcceptorLimiter) (r : AcceptorReservation) : Bool :=
  l.is_fresh r

/-- Release of an uncommitted reservation
(`AcceptorLimiter::release_reservation`): a stale generation or an
already-zero counter is a silent no-op, otherwise the counter is
decremented and exactly one `notify_one` is issued.  The second
component records whether `notify_one` ran. -/
def AcceptorLimiter.release_reservation (l : AcceptorLimiter) (generation : Nat) :
    AcceptorLimiter × Bool :=
  if generation ≠ l.generation then (l, false)
  else if l.used = 0 then (l, false)
  else ({ l with used := l.used - 1 }, true)

/-- Admission decision of `handle_command(Command::NewStream)` (client
`streams.rs`): a stale reservation drops the accepted socket before any
stream is created; `picoquic_mark_active_stream` failure aborts; a
failed `commit` (generation moved during activation) aborts; only a
successful commit inserts a stream into the table. -/
def newStreamAdmitted (l : AcceptorLimiter) (r : AcceptorReservation)
    (markActiveOk : Bool) : Bool :=
  if ¬l.is_fresh r then false
  else if ¬markActiveOk then false
  else l.commit r

/-- Trace operations for the credit-bound argument: a `reserve` attempt
by the listener task, or the drop of one live uncommitted reservation. -/
inductive AccOp
  | reserveOp
  | releaseOp
deriving DecidableEq, Repr

/-- One trace step over (limiter, number of live uncommitted
reservations): a blocked `reserve` leaves the state unchanged (the task
suspends); a release drops one live reservation at the current
generation. -/
def accStep : AcceptorLimiter × Nat → AccOp → AcceptorLimiter × Nat
  | (l, live), .reserveOp =>
      match l.reserve with
      | some (l1, _) => (l1, live + 1)
      | none => (l, live)
  | (l, live), .releaseOp =>
      if live = 0 then (l, live)
      else ((l.release_reservation l.generation).1, live - 1)

/-- Run a trace of acceptor operations from a fresh limiter with fixed
credit `max`. -/
def accRun (max : Nat) (ops : List AccOp) : AcceptorLimiter × Nat :=
  ops.foldl accStep (AcceptorLimiter.init max, 0)

/-! ## Connection failure tracking
(client `android.rs` and the close handling at the bottom of
`run_client`'s outer loop in `runtime.rs`)

`CONSECUTIVE_FAILURES` is a plain atomic counter; `MAX_CONSECUTIVE_FAILURES = 5`.
On non-Android targets these functions are compiled as no-ops; the model
follows the Android definitions the claim cites. -/

/-- Maximum consecutive unready closes before giving up
(`MAX_CONSECUTIVE_FAILURES`). -/
def MAX_CONSECUTIVE_FAILURES : Nat := 5

/-- Increment the consecutive-failure counter
(`record_connection_failure`). -/
def record_connection_failure (failures : Nat) : Nat := failures + 1

/-- Whether the counter has reached the giving-up threshold
(`exceeded_max_failures`, `CONSECUTIVE_FAILURES >= MAX_CONSECUTIVE_FAILURES`). -/
def exceeded_max_failures (failures : Nat) : Bool :=
  MAX_CONSECUTIVE_FAILURES ≤ failures

/-- `signal_quic_ready` stores 0 into `CONSECUTIVE_FAILURES`. -/
def failuresAfterReady : Nat := 0

/-- Outcome of one connection attempt close in `run_client`'s outer
loop: reconnect, or return the repeated-failures error. -/
inductive CloseOutcome
  | reconnect
  | giveUp
deriving DecidableEq, Repr

/-- Close handling of one attempt (`runtime.rs`, after the inner loop):
an attempt that signalled QUIC-ready reset the counter when it became
ready and records nothing on close; an unready close records a failure
and gives up as soon as `exceeded_max_failures` holds. -/
def attemptClose (reachedReady : Bool) (failures : Nat) : Nat × CloseOutcome :=
  if reachedReady then (failuresAfterReady, .reconnect)
  else
    let f := record_connection_failure failures
    (f, if exceeded_max_failures f then .giveUp else .reconnect)

/-- Failure counter after `k` consecutive unready closes starting from
counter value `f`. -/
def failuresAfterUnready (f : Nat) : Nat → Nat
  | 0 => f
  | k + 1 => (attemptClose false (failuresAfterUnready f k)).1

/-- Outcome of the `k`-th consecutive unready close (`k ≥ 1`) starting
from counter value `f`. -/
def nthUnreadyOutcome (f k : Nat) : CloseOutcome :=
  (attemptClose false (failuresAfterUnready f (k - 1))).2

/-! ## UDP error handling in the inner loop
(client `runtime.rs`, the `udp.recv_from` select arm and the
`udp.send_to` call of the send burst)

`is_transient_udp_error` lives in `slipstream-core` (not in the provided
sources) and is modelled from the spec's listing (EAGAIN, EINTR,
ENETUNREACH, etc.); the control flow around it is translated from
`runtime.rs` directly.  The inner loop of `run_client` exits to the
reconnect logic only through the `closing` break; a `return Err(..)`
leaves `run_client` itself. -/

/-- Kinds of UDP socket errors, with an explicit transience bit for the
open-ended "etc." class. -/
inductive UdpErrorKind
  | wouldBlock
  | interrupted
  | netUnreachable
  | other (transient : Bool)
deriving DecidableEq, Repr

/-- Modelled from the spec: `is_transient_udp_error` of
`slipstream-core` (spec §7 "Transient I/O (EAGAIN, EINTR, ENETUNREACH on
UDP): swallowed"). -/
def is_transient_udp_error : UdpErrorKind → Bool
  | .wouldBlock => true
  | .interrupted => true
  | .netUnreachable => true
  | .other transient => transient

/-- How one iteration of `run_client`'s inner loop ends: keep looping,
break out to the reconnect logic (only the `closing` flag does this),
return `Ok` (shutdown), or return an error from `run_client`. -/
inductive InnerOutcome
  | continueLoop
  | breakReconnect
  | returnOk
  | returnError
deriving DecidableEq, Repr

/-- Error handling of the `udp.recv_from` arm (`runtime.rs`): a
transient error is swallowed and the loop continues; any other error is
`return Err(map_io(err))` out of `run_client`. -/
def udpRecvErrorOutcome (e : UdpErrorKind) : InnerOutcome :=
  if is_transient_udp_error e then .continueLoop else .returnError

/-- Error handling of the `udp.send_to` call in the send burst
(`runtime.rs`): identical shape to the receive arm. -/
def udpSendErrorOutcome (e : UdpErrorKind) : InnerOutcome :=
  if is_transient_udp_error e then .continueLoop else .returnError

/-! ## Authoritative poll pacing, demand floor and idle throttle
(client `runtime.rs`, the per-resolver poll loop after the send burst)

`cwnd_target_polls`, `inflight_packet_estimate` and
`path_poll_burst_max` live in modules outside the provided sources, so
the tick takes the pacing target, the in-flight packet estimate and the
per-path burst cap as numeric inputs.  `send_poll_queries` (in
`dns.rs`, also outside the provided sources) is modelled from the spec
(§4.1 step 11: "send that many poll queries") as sending every requested
query, leaving zero remaining. -/

/-- Idle threshold: two seconds without streams (`IDLE_THRESHOLD_US`). -/
def IDLE_THRESHOLD_US : Nat := 2000000

/-- The `is_idle` computation of the inner loop (`runtime.rs`): idle
polling must be configured and no stream may have been active for the
last two seconds. -/
def computeIsIdle (idlePollIntervalUs now lastActiveAt : Nat) : Bool :=
  0 < idlePollIntervalUs && IDLE_THRESHOLD_US ≤ now - lastActiveAt

/-- Inputs of one authoritative poll tick for one resolver. -/
structure AuthTickIn where
  target : Nat
  inflightPackets : Nat
  pendingPolls : Nat
  hasReadyStream : Bool
  flowBlocked : Bool
  isIdle : Bool
  now : Nat
  lastIdlePollAt : Nat
  idlePollIntervalUs : Nat
  burstMax : Nat
deriving DecidableEq, Repr

/-- Outputs of one authoritative poll tick: queries sent, the resolver's
`pending_polls` after the tick, and `last_idle_poll_at` after the tick. -/
structure AuthTickOut where
  sent : Nat
  pendingPolls : Nat
  lastIdlePollAt : Nat
deriving DecidableEq, Repr

/-- One authoritative-resolver poll tick (`runtime.rs`): the pacing
deficit is `target - in_flight`, zeroed when a ready stream exists and
the connection is not flow-blocked; `pending_polls` is consumed as the
demand floor; when idle, the deficit is suppressed inside the idle
interval and forced to one outside it; the result is clamped to the
per-path burst cap, and an idle send stamps `last_idle_poll_at`. -/
def authPollTick (i : AuthTickIn) : AuthTickOut :=
  let pacingDeficit0 := i.target - i.inflightPackets
  let pacingDeficit :=
    if i.hasReadyStream && !i.flowBlocked then 0 else pacingDeficit0
  let demandPolls := i.pendingPolls
  let pollDeficit0 := max pacingDeficit demandPolls
  let pollDeficit :=
    if i.isIdle && 0 < pollDeficit0 then
      if i.now - i.lastIdlePollAt < i.idlePollIntervalUs then 0 else 1
    else pollDeficit0
  if 0 < pollDeficit then
    { sent := min pollDeficit i.burstMax,
      pendingPolls := 0,
      lastIdlePollAt := if i.isIdle then i.now else i.lastIdlePollAt }
  else
    { sent := 0, pendingPolls := 0, lastIdlePollAt := i.lastIdlePollAt }

/-- The per-tick poll count the claim states: the effective deficit
`max (target - in_flight) pending_polls` clamped to the per-path burst
cap.  Written from the spec's words (§4.6), to be compared with
`authPollTick`. -/
def claimedAuthPollCount (target inflightPackets pendingPolls burstMax : Nat) : Nat :=
  min (max (target - inflightPackets) pendingPolls) burstMax

/-- One recursive-resolver poll tick (`runtime.rs`): send
`min pending_polls burst_max` queries and keep the remainder pending;
no idle gating is applied on this path. -/
def recursivePollTick (pendingPolls burstMax : Nat) : Nat × Nat :=
  if 0 < pendingPolls then
    if burstMax < pendingPolls then (burstMax, pendingPolls - burstMax)
    else (pendingPolls, 0)
  else (0, pendingPolls)

/-! ## Reconnect back-off
(client `runtime.rs`: `RECONNECT_SLEEP_MIN_MS`, `RECONNECT_SLEEP_MAX_MS`,
the sleep loop at the bottom of the outer loop, and the delay reset when
the connection becomes ready) -/

/-- Minimal reconnect sleep in milliseconds (`RECONNECT_SLEEP_MIN_MS`). -/
def RECONNECT_SLEEP_MIN_MS : Nat := 250

/-- Maximal reconnect sleep in milliseconds (`RECONNECT_SLEEP_MAX_MS`). -/
def RECONNECT_SLEEP_MAX_MS : Nat := 5000

/-- Delay update after the sleep
(`reconnect_delay = (reconnect_delay * 2).min(5s)`). -/
def nextReconnectDelay (d : Nat) : Nat :=
  min (2 * d) RECONNECT_SLEEP_MAX_MS

/-- Sleep taken by one attempt and the delay carried to the next one:
an attempt whose connection became ready reset the delay to the minimum
while the inner loop ran, so its close sleeps the minimum; the delay
then doubles, capped. -/
def attemptBackoff (reachedReady : Bool) (d : Nat) : Nat × Nat :=
  let sleepMs := if reachedReady then RECONNECT_SLEEP_MIN_MS else d
  (sleepMs, nextReconnectDelay sleepMs)

/-- Reconnect delay before attempt `k+1` when no attempt ever reached
ready: `250 ms` doubled `k` times, capped at `5 s`. -/
def reconnectDelaySeq : Nat → Nat
  | 0 => RECONNECT_SLEEP_MIN_MS
  | k + 1 => nextReconnectDelay (reconnectDelaySeq k)

/-- The chunks of one back-off sleep (`runtime.rs`:
`chunk = remaining_sleep.min(100ms)`), in milliseconds. -/
def backoffChunks (remaining : Nat) : List Nat :=
  match remaining with
  | 0 => []
  | r + 1 =>
      have h : r + 1 - min (r + 1) 100 < r + 1 := by omega
      min (r + 1) 100 :: backoffChunks (r + 1 - min (r + 1) 100)

/-- Elapsed time at which the back-off sleep loop observes a shutdown
signalled `shutdownAt` milliseconds in (or the total sleep when the
signal never arrives in time): the loop checks `should_shutdown()`
before each chunk and sleeps at most 100 ms between checks. -/
def backoffObserve (remaining elapsed shutdownAt : Nat) : Nat :=
  if shutdownAt ≤ elapsed then elapsed
  else
    match remaining with
    | 0 => elapsed
    | r + 1 =>
        have h : r + 1 - min (r + 1) 100 < r + 1 := by omega
        backoffObserve (r + 1 - min (r + 1) 100) (elapsed + min (r + 1) 100)
          shutdownAt
termination_by remaining

/-! ## Concrete instances used by witnesses and counterexamples -/

/-- A non-idle authoritative tick with a ready stream and no flow
blocking: positive cwnd deficit, no demand. -/
def readyStreamTick : AuthTickIn :=
  { target := 2, inflightPackets := 0, pendingPolls := 0,
    hasReadyStream := true, flowBlocked := false, isIdle := false,
    now := 1000, lastIdlePollAt := 0, idlePollIntervalUs := 1000000,
    burstMax := 8 }

/-- A non-idle authoritative tick with pacing deficit 3, demand 1 and
burst cap 2. -/
def pacedTick : AuthTickIn :=
  { target := 4, inflightPackets := 1, pendingPolls := 1,
    hasReadyStream := false, flowBlocked := false, isIdle := false,
    now := 1000, lastIdlePollAt := 0, idlePollIntervalUs := 1000000,
    burstMax := 2 }

/-- An idle authoritative tick 100 µs after the last idle poll, inside
a 5000 µs idle interval. -/
def idleTickEarly : AuthTickIn :=
  { target := 4, inflightPackets := 0, pendingPolls := 2,
    hasReadyStream := false, flowBlocked := false, isIdle := true,
    now := 1000, lastIdlePollAt := 900, idlePollIntervalUs := 5000,
    burstMax := 8 }

/-- The same idle tick once the idle interval has elapsed. -/
def idleTickDue : AuthTickIn :=
  { idleTickEarly with now := 9000 }

/-- A client stream latched `discarding` by an overflow on its first
chunk (the local sink was dropped and replaced by a drain channel, so
the write channel is open), with both halves still open. -/
def discardingOpenStream : ClientStream :=
  { writeChannelOpen := true, hasDataRx := true, tx_bytes := 0,
    recv_state := StreamRecvState.Open, send_state := StreamSendState.Open,
    flow := { rx_bytes := 0, consumed_offset := 0, queued_bytes := 0,
              fin_offset := none, discarding := true, stop_sending_sent := true } }

/-- A healthy mid-transfer client stream: 100 bytes received and still
queued toward the local TCP writer, both halves open. -/
def midTransferStream : ClientStream :=
  { writeChannelOpen := true, hasDataRx := true, tx_bytes := 40,
    recv_state := StreamRecvState.Open, send_state := StreamSendState.Open,
    flow := { rx_bytes := 100, consumed_offset := 0, queued_bytes := 100,
              fin_offset := none, discarding := false, stop_sending_sent := false } }

/-- The single-stream-mode configuration used in witnesses, with a
64 KiB connection reserve and a 1 MiB per-stream queue cap. -/
def witnessCfg : StreamCfg :=
  { multiStream := false, connReserveBytes := 65536, maxQueuedBytes := 1048576 }

/-- Hooks where every external call succeeds. -/
def okHooks : Hooks :=
  { consumeOk := true, addToStreamOk := true }

/-! ## Helper lemmas -/

/-- The engine never lets the queue grow past the cap. -/
theorem receive_queued_le (fl : FlowControlState) (n reserve maxQueued : Nat)
    (enqueueOk consumeOk : Bool) (h : fl.queued_bytes ≤ maxQueued) :
    (handle_stream_receive fl n reserve maxQueued enqueueOk consumeOk).1.queued_bytes ≤
      maxQueued := by
  simp only [handle_stream_receive]
  split_ifs <;> simp_all <;> omega

/-- The engine latches `discarding` exactly when it issues
`stop_sending`, and it issues `stop_sending` exactly on a non-empty
chunk that would push the queue of a non-discarding stream past the
cap. -/
theorem receive_stop_iff (fl : FlowControlState) (n reserve maxQueued : Nat)
    (enqueueOk consumeOk : Bool) :
    ((handle_stream_receive fl n reserve maxQueued enqueueOk consumeOk).1.discarding =
      (fl.discarding ||
        (handle_stream_receive fl n reserve maxQueued enqueueOk consumeOk).2.1.stopSending)) ∧
    ((handle_stream_receive fl n reserve maxQueued enqueueOk consumeOk).2.1.stopSending =
        true ↔
      fl.discarding = false ∧ n ≠ 0 ∧ maxQueued < fl.queued_bytes + n) := by
  simp only [handle_stream_receive]
  split_ifs <;> simp_all

/-- On a non-discarding stream with room for the chunk and succeeding
hooks, the engine accepts the chunk: the byte counters advance, no
`stop_sending` is issued and the result is ok. -/
theorem receive_ok_characterization (fl : FlowControlState) (n reserve maxQueued : Nat)
    (hdisc : fl.discarding = false) (hq : fl.queued_bytes + n ≤ maxQueued) :
    (handle_stream_receive fl n reserve maxQueued true true).2.2 = ReceiveResult.ok ∧
    (handle_stream_receive fl n reserve maxQueued true true).1.discarding = false ∧
    (handle_stream_receive fl n reserve maxQueued true true).1.rx_bytes =
      fl.rx_bytes + n ∧
    (handle_stream_receive fl n reserve maxQueued true true).1.queued_bytes =
      fl.queued_bytes + n ∧
    (handle_stream_receive fl n reserve maxQueued true true).1.fin_offset =
      fl.fin_offset ∧
    (handle_stream_receive fl n reserve maxQueued true true).2.1.stopSending = false := by
  simp only [handle_stream_receive]
  split_ifs <;> simp_all <;> omega

/-- On a discarding stream a non-empty chunk with a succeeding consume
hook only advances the byte counters: the queue is frozen, the receive
count grows by the chunk and the consumed offset moves up to the
reserve target (it never regresses). -/
theorem receive_discarding_advance (fl : FlowControlState)
    (n reserve maxQueued : Nat) (enqueueOk : Bool)
    (hdisc : fl.discarding = true) (hn : 0 < n) :
    (handle_stream_receive fl n reserve maxQueued enqueueOk true).2.2 =
      ReceiveResult.ok ∧
    (handle_stream_receive fl n reserve maxQueued enqueueOk true).1.queued_bytes =
      fl.queued_bytes ∧
    (handle_stream_receive fl n reserve maxQueued enqueueOk true).1.rx_bytes =
      fl.rx_bytes + n ∧
    (handle_stream_receive fl n reserve maxQueued enqueueOk true).1.consumed_offset =
      max fl.consumed_offset
        (reserve_target_offset (fl.rx_bytes + n) fl.queued_bytes fl.fin_offset
          reserve) ∧
    (handle_stream_receive fl n reserve maxQueued enqueueOk true).1.discarding =
      true := by
  simp only [handle_stream_receive]
  split_ifs <;> simp_all <;> omega

/-- Over any sequence of chunks the engine issues at most one
`stop_sending`, and none at all from an already-discarding state. -/
theorem runChunks_stop_le_one (reserve maxQueued : Nat) (enqueueOk consumeOk : Bool)
    (chunks : List Nat) :
    ∀ fl : FlowControlState,
      (fl.discarding = true →
        (runChunks reserve maxQueued enqueueOk consumeOk fl chunks).2 = 0) ∧
      (runChunks reserve maxQueued enqueueOk consumeOk fl chunks).2 ≤ 1 := by
  induction chunks with
  | nil => intro fl; simp [runChunks]
  | cons n rest ih =>
      intro fl
      have hstop := receive_stop_iff fl n reserve maxQueued enqueueOk consumeOk
      set r := handle_stream_receive fl n reserve maxQueued enqueueOk consumeOk with hr
      have hrest := ih r.1
      constructor
      · intro hdisc
        have h0 : r.2.1.stopSending = false := by
          rcases hstopv : r.2.1.stopSending with _ | _
          · rfl
          · exact absurd (hstop.2.mp hstopv).1 (by simp [hdisc])
        have hdisc1 : r.1.discarding = true := by
          rw [hstop.1, hdisc, Bool.true_or]
        simp [runChunks, ← hr, h0, hrest.1 hdisc1]
      · rcases hstopv : r.2.1.stopSending with _ | _
        · simp [runChunks, ← hr, hstopv]
          exact hrest.2
        · have hdisc1 : r.1.discarding = true := by
            rw [hstop.1, hstopv, Bool.or_true]
          simp [runChunks, ← hr, hstopv, hrest.1 hdisc1]

/-- Full evaluation of the engine on the overflow-triggering chunk. -/
theorem receive_overflow_eq (fl : FlowControlState) (n reserve maxQueued : Nat)
    (enqueueOk consumeOk : Bool)
    (hdisc : fl.discarding = false) (hq : fl.queued_bytes ≤ maxQueued)
    (hover : maxQueued < fl.queued_bytes + n) :
    handle_stream_receive fl n reserve maxQueued enqueueOk consumeOk =
      ({ fl with discarding := true, stop_sending_sent := true },
       { stopSending := true, consumedTo := none }, ReceiveResult.overflow) := by
  have hn : ¬n = 0 := by omega
  simp only [handle_stream_receive, hdisc, if_neg hn, if_pos hover,
    Bool.false_eq_true, if_false]

/-- An overflow chunk (no fin) keeps the stream in the table: the
`handle_stream_receive` return is not fatal, the fin branch is not
taken, and the final removal check fails on the freshly latched
`discarding` flag.  The latch also swaps in the drain channel and
emits `stop_sending` without aborting the stream. -/
theorem overflow_keeps_stream (cfg : StreamCfg) (st : ClientStream) (n : Nat)
    (hooks : Hooks) (hdisc : st.flow.discarding = false)
    (hst : st.flow.queued_bytes ≤ cfg.maxQueuedBytes)
    (hover : cfg.maxQueuedBytes < st.flow.queued_bytes + n) :
    (stepStream cfg st (StreamEvent.peerData n false) hooks).2.1 = false ∧
    (stepStream cfg st (StreamEvent.peerData n false) hooks).2.2.stopSending = true ∧
    (stepStream cfg st (StreamEvent.peerData n false) hooks).2.2.abortSent = false ∧
    (stepStream cfg st (StreamEvent.peerData n false) hooks).1.flow.discarding =
      true := by
  have heq := receive_overflow_eq st.flow n cfg.reserveBytes cfg.maxQueuedBytes
    st.writeChannelOpen hooks.consumeOk hdisc hst hover
  simp [stepStream, handleStreamDataEntry, heq]

/-- Every stream event preserves the per-stream queue bound. -/
theorem step_queued_le (cfg : StreamCfg) (st : ClientStream) (ev : StreamEvent)
    (hooks : Hooks) (h : st.flow.queued_bytes ≤ cfg.maxQueuedBytes) :
    (stepStream cfg st ev hooks).1.flow.queued_bytes ≤ cfg.maxQueuedBytes := by
  cases ev with
  | peerData n fin =>
      have hb := receive_queued_le st.flow n cfg.reserveBytes cfg.maxQueuedBytes
        st.writeChannelOpen hooks.consumeOk h
      rcases hR : handle_stream_receive st.flow n cfg.reserveBytes cfg.maxQueuedBytes
          st.writeChannelOpen hooks.consumeOk with ⟨fl, eff, res⟩
      rw [hR] at hb
      simp only [stepStream, handleStreamDataEntry, hR]
      split_ifs <;> simp_all <;> split_ifs <;> simp_all
  | streamClosed =>
      simp only [stepStream, streamClosedEntry]
      split_ifs <;> simp_all
  | writeDrained bytes =>
      simp only [stepStream, writeDrainedEntry, consume_stream_data]
      split_ifs <;> simp_all <;> omega
  | peerReset => simpa [stepStream] using h

/-- The acceptor trace invariant: `used` counts the live uncommitted
reservations plus the committed ones (none are ever released), never
exceeds the credit, and neither `max` nor `generation` move without a
`set_max`/`reset`. -/
theorem accStep_foldl_inv (ops : List AccOp) :
    ∀ s : AcceptorLimiter × Nat, s.1.used = s.2 → s.1.used ≤ s.1.max →
      (ops.foldl accStep s).1.used = (ops.foldl accStep s).2 ∧
      (ops.foldl accStep s).1.used ≤ (ops.foldl accStep s).1.max ∧
      (ops.foldl accStep s).1.max = s.1.max ∧
      (ops.foldl accStep s).1.generation = s.1.generation := by
  induction ops with
  | nil => intro s h1 h2; exact ⟨h1, h2, rfl, rfl⟩
  | cons op rest ih =>
      intro s h1 h2
      have hstep : (accStep s op).1.used = (accStep s op).2 ∧
          (accStep s op).1.used ≤ (accStep s op).1.max ∧
          (accStep s op).1.max = s.1.max ∧
          (accStep s op).1.generation = s.1.generation := by
        obtain ⟨l, live⟩ := s
        have h1' : l.used = live := h1
        have h2' : l.used ≤ l.max := h2
        cases op with
        | reserveOp =>
            by_cases hlt : l.used < l.max
            · simp only [accStep, AcceptorLimiter.reserve, if_pos hlt]
              exact ⟨by omega, by omega, by trivial, by trivial⟩
            · simp only [accStep, AcceptorLimiter.reserve, if_neg hlt]
              exact ⟨by omega, by omega, by trivial, by trivial⟩
        | releaseOp =>
            by_cases hlive : live = 0
            · simp only [accStep, if_pos hlive]
              exact ⟨by omega, by omega, by trivial, by trivial⟩
            · simp only [accStep, AcceptorLimiter.release_reservation, if_neg hlive,
                ne_eq, not_true_eq_false, if_false, if_neg (by omega : ¬l.used = 0)]
              exact ⟨by omega, by omega, by trivial, by trivial⟩
      have := ih (accStep s op) hstep.1 hstep.2.1
      simp only [List.foldl_cons]
      exact ⟨this.1, this.2.1, this.2.2.1.trans hstep.2.2.1,
        this.2.2.2.trans hstep.2.2.2⟩

/-- Unfolding equation of `backoffObserve` when the signal is already
observable at the current check. -/
theorem backoffObserve_of_le (remaining elapsed shutdownAt : Nat)
    (h : shutdownAt ≤ elapsed) :
    backoffObserve remaining elapsed shutdownAt = elapsed := by
  unfold backoffObserve
  simp [h]

/-- The shutdown check before every ≤ 100 ms chunk observes a signal
raised at `shutdownAt` within 100 ms of it. -/
theorem backoffObserve_le (remaining : Nat) :
    ∀ elapsed shutdownAt : Nat, elapsed ≤ shutdownAt →
      backoffObserve remaining elapsed shutdownAt ≤ shutdownAt + 100 := by
  induction remaining using Nat.strong_induction_on with
  | _ remaining ih =>
      intro elapsed shutdownAt h
      unfold backoffObserve
      split
      · omega
      · match hr : remaining with
        | 0 =>
            show elapsed ≤ shutdownAt + 100
            omega
        | r + 1 =>
            show backoffObserve (r + 1 - min (r + 1) 100)
                (elapsed + min (r + 1) 100) shutdownAt ≤ shutdownAt + 100
            by_cases hc : elapsed + min (r + 1) 100 ≤ shutdownAt
            · exact ih (r + 1 - min (r + 1) 100) (by omega) _ _ hc
            · rw [backoffObserve_of_le _ _ _ (by omega)]
              omega

/-- Every back-off sleep chunk is at most 100 ms and the chunks cover
the whole sleep. -/
theorem backoffChunks_spec (remaining : Nat) :
    (∀ c ∈ backoffChunks remaining, c ≤ 100) ∧
    (backoffChunks remaining).sum = remaining := by
  induction remaining using Nat.strong_induction_on with
  | _ remaining ih =>
      match hr : remaining with
      | 0 => simp [backoffChunks]
      | r + 1 =>
          unfold backoffChunks
          have := ih (r + 1 - min (r + 1) 100) (by omega)
          constructor
          · intro c hc
            rcases List.mem_cons.mp hc with h | h
            · omega
            · exact this.1 c h
          · simp only [List.sum_cons, this.2]
            omega

/-- Closed form of the reconnect delay sequence. -/
theorem reconnectDelaySeq_eq (k : Nat) :
    reconnectDelaySeq k = min (RECONNECT_SLEEP_MIN_MS * 2 ^ k) RECONNECT_SLEEP_MAX_MS := by
  induction k with
  | zero => simp [reconnectDelaySeq, RECONNECT_SLEEP_MIN_MS, RECONNECT_SLEEP_MAX_MS]
  | succ k ih =>
      have h1 : (1 : Nat) ≤ 2 ^ k := Nat.one_le_two_pow
      simp only [reconnectDelaySeq, nextReconnectDelay, ih, pow_succ,
        RECONNECT_SLEEP_MIN_MS, RECONNECT_SLEEP_MAX_MS] at *
      omega

/-- The failure counter after `k` consecutive unready closes. -/
theorem failuresAfterUnready_eq (f k : Nat) :
    failuresAfterUnready f k = f + k := by
  induction k with
  | zero => rfl
  | succ k ih =>
      simp [failuresAfterUnready, ih, attemptClose, record_connection_failure]
      omega

/-! ## Claim theorems -/

/-- C3: after `reset()` the used counter is zero and no reservation
captured at an earlier generation can commit: `commit()` returns false
for it, its drop releases it silently (no counter change, no wake), and
`handle_command(NewStream)` drops the accepted TCP socket without
creating a stream. -/
theorem acceptor_generation_safety (l : AcceptorLimiter) (r : AcceptorReservation)
    (markActiveOk : Bool) (hr : r.generation ≤ l.generation) :
    l.reset.used = 0 ∧
    l.reset.commit r = false ∧
    l.reset.release_reservation r.generation = (l.reset, false) ∧
    newStreamAdmitted l.reset r markActiveOk = false := by
  have hne : l.reset.generation ≠ r.generation := by
    simp only [AcceptorLimiter.reset]
    omega
  have hfresh : l.reset.is_fresh r = false := by
    simp only [AcceptorLimiter.is_fresh, beq_eq_false_iff_ne, ne_eq]
    exact hne
  refine ⟨rfl, ?_, ?_, ?_⟩
  · simp only [AcceptorLimiter.commit, hfresh]
  · simp only [AcceptorLimiter.release_reservation, if_pos (Ne.symm hne)]
  · simp only [newStreamAdmitted, hfresh, Bool.not_false, Bool.false_eq_true,
      not_false_eq_true, if_pos]

/-- C3 witness: a concrete limiter of credit 4 at generation 0 and a
reservation captured at generation 0, checked across a reset. -/
theorem acceptor_generation_safety_witness :
    (AcceptorLimiter.init 4).reset.used = 0 ∧
    (AcceptorLimiter.init 4).reset.commit ⟨0⟩ = false ∧
    (AcceptorLimiter.init 4).reset.release_reservation 0 =
      ((AcceptorLimiter.init 4).reset, false) ∧
    newStreamAdmitted (AcceptorLimiter.init 4).reset ⟨0⟩ true = false :=
  acceptor_generation_safety (AcceptorLimiter.init 4) ⟨0⟩ true (by decide)

/-- C4: with a fixed credit `max`, any interleaving of `reserve()`
attempts and reservation drops keeps the live-reservation count equal to
`used` and never above `max`; `reserve()` suspends exactly while
`used ≥ max` and otherwise increments `used` capturing the current
generation; a fresh release decrements `used` and issues exactly one
`notify_one`. -/
theorem acceptor_credit_bound (max : Nat) (ops : List AccOp) (l : AcceptorLimiter) :
    ((accRun max ops).1.used = (accRun max ops).2 ∧ (accRun max ops).2 ≤ max) ∧
    (l.max ≤ l.used → l.reserve = none) ∧
    (l.used < l.max →
      l.reserve = some ({ l with used := l.used + 1 }, { generation := l.generation })) ∧
    (0 < l.used →
      l.release_reservation l.generation = ({ l with used := l.used - 1 }, true)) := by
  have hinv := accStep_foldl_inv ops (AcceptorLimiter.init max, 0) rfl (Nat.zero_le _)
  refine ⟨⟨hinv.1, ?_⟩, ?_, ?_, ?_⟩
  · have h1 := hinv.1
    have h2 := hinv.2.1
    have h3 := hinv.2.2.1
    simp only [accRun, AcceptorLimiter.init] at *
    omega
  · intro h
    simp only [AcceptorLimiter.reserve, if_neg (by omega : ¬l.used < l.max)]
  · intro h
    simp only [AcceptorLimiter.reserve, if_pos h]
  · intro h
    simp only [AcceptorLimiter.release_reservation, ne_eq, not_true_eq_false,
      if_false, if_neg (by omega : ¬l.used = 0)]

/-- C4 witness: a trace on credit 2 — two admissions, one blocked
attempt, one release — together with the reserve/release facts at the
resulting limiter. -/
theorem acceptor_credit_bound_witness :
    ((accRun 2 [AccOp.reserveOp, AccOp.reserveOp, AccOp.reserveOp,
        AccOp.releaseOp]).1.used =
      (accRun 2 [AccOp.reserveOp, AccOp.reserveOp, AccOp.reserveOp,
        AccOp.releaseOp]).2 ∧
     (accRun 2 [AccOp.reserveOp, AccOp.reserveOp, AccOp.reserveOp,
        AccOp.releaseOp]).2 ≤ 2) ∧
    ({ max := 2, used := 2, generation := 0 } : AcceptorLimiter).reserve = none ∧
    ({ max := 2, used := 1, generation := 0 } : AcceptorLimiter).release_reservation 0 =
      ({ max := 2, used := 0, generation := 0 }, true) := by
  have h := acceptor_credit_bound 2
    [AccOp.reserveOp, AccOp.reserveOp, AccOp.reserveOp, AccOp.releaseOp]
    { max := 2, used := 2, generation := 0 }
  have h2 := acceptor_credit_bound 2 ([] : List AccOp)
    { max := 2, used := 1, generation := 0 }
  exact ⟨h.1, h.2.1 (by decide), h2.2.2.2 (by decide)⟩

/-- C5 counterexample: a non-transient UDP error makes `run_client`
return an error (it does not break to the reconnect logic of the outer
loop, which only the `closing` flag reaches). -/
theorem udp_fatal_error_terminates_counterexample :
    udpRecvErrorOutcome (UdpErrorKind.other false) = InnerOutcome.returnError ∧
    udpSendErrorOutcome (UdpErrorKind.other false) = InnerOutcome.returnError ∧
    InnerOutcome.returnError ≠ InnerOutcome.breakReconnect := by decide

/-- C5 amended: transient UDP errors (EAGAIN, EINTR, ENETUNREACH, etc.)
on receive or send are swallowed and the inner loop continues, while a
non-transient UDP error makes `run_client` return an error — the client
terminates rather than reconnecting. -/
theorem udp_error_semantics_amended (e : UdpErrorKind) :
    (is_transient_udp_error e = true →
      udpRecvErrorOutcome e = InnerOutcome.continueLoop ∧
      udpSendErrorOutcome e = InnerOutcome.continueLoop) ∧
    (is_transient_udp_error e = false →
      udpRecvErrorOutcome e = InnerOutcome.returnError ∧
      udpSendErrorOutcome e = InnerOutcome.returnError ∧
      udpRecvErrorOutcome e ≠ InnerOutcome.breakReconnect) ∧
    is_transient_udp_error UdpErrorKind.wouldBlock = true ∧
    is_transient_udp_error UdpErrorKind.interrupted = true ∧
    is_transient_udp_error UdpErrorKind.netUnreachable = true := by
  cases e with
  | wouldBlock => decide
  | interrupted => decide
  | netUnreachable => decide
  | other t => cases t <;> decide

/-- C5 witness: the amended statement applied to EAGAIN and to a
non-transient error. -/
theorem udp_error_semantics_amended_witness :
    udpRecvErrorOutcome UdpErrorKind.wouldBlock = InnerOutcome.continueLoop ∧
    udpRecvErrorOutcome (UdpErrorKind.other false) = InnerOutcome.returnError :=
  ⟨((udp_error_semantics_amended UdpErrorKind.wouldBlock).1 (by decide)).1,
   ((udp_error_semantics_amended (UdpErrorKind.other false)).2.1 (by decide)).1⟩

/-- C6: an unready close always increments the consecutive-failure
counter, a ready connection resets it, and starting from a reset counter
the outer loop gives up (returns an error instead of reconnecting)
exactly at the fifth consecutive unready close. -/
theorem unready_close_threshold (f k : Nat) (hk : 1 ≤ k) :
    (attemptClose false f).1 = f + 1 ∧
    (attemptClose true f).1 = 0 ∧
    ((attemptClose false f).2 = CloseOutcome.giveUp ↔
      MAX_CONSECUTIVE_FAILURES ≤ f + 1) ∧
    failuresAfterUnready 0 k = k ∧
    nthUnreadyOutcome 0 k =
      (if MAX_CONSECUTIVE_FAILURES ≤ k then CloseOutcome.giveUp
       else CloseOutcome.reconnect) := by
  refine ⟨rfl, rfl, ?_, (failuresAfterUnready_eq 0 k).trans (Nat.zero_add k), ?_⟩
  · simp only [attemptClose, record_connection_failure, exceeded_max_failures]
    split
    · simp_all
    · simp_all
  · unfold nthUnreadyOutcome
    rw [failuresAfterUnready_eq]
    simp only [attemptClose, record_connection_failure, exceeded_max_failures,
      Nat.zero_add]
    have : k - 1 + 1 = k := by omega
    rw [this]
    simp

/-- C6 witness: the fifth consecutive unready close gives up, the
fourth still reconnects. -/
theorem unready_close_threshold_witness :
    nthUnreadyOutcome 0 5 =
      (if MAX_CONSECUTIVE_FAILURES ≤ 5 then CloseOutcome.giveUp
       else CloseOutcome.reconnect) ∧
    nthUnreadyOutcome 0 4 =
      (if MAX_CONSECUTIVE_FAILURES ≤ 4 then CloseOutcome.giveUp
       else CloseOutcome.reconnect) :=
  ⟨(unready_close_threshold 0 5 (by decide)).2.2.2.2,
   (unready_close_threshold 0 4 (by decide)).2.2.2.2⟩

/-- C7 counterexample: on a non-idle tick with a ready stream and no
flow blocking, the code zeroes the pacing deficit before applying the
demand floor, so the number of polls sent (0) differs from the claimed
`min (max (target - in_flight) pending_polls) burst` (here 2). -/
theorem poll_pacing_counterexample :
    (authPollTick readyStreamTick).sent = 0 ∧
    claimedAuthPollCount readyStreamTick.target readyStreamTick.inflightPackets
      readyStreamTick.pendingPolls readyStreamTick.burstMax = 2 ∧
    (authPollTick readyStreamTick).sent ≠
      claimedAuthPollCount readyStreamTick.target readyStreamTick.inflightPackets
        readyStreamTick.pendingPolls readyStreamTick.burstMax := by decide

/-- C7 amended: on a non-idle tick the number of authoritative polls
sent equals `min (max pacing_deficit pending_polls) burst`, where
`pacing_deficit = target - in_flight` is forced to zero when the
connection has a ready stream and is not flow-blocked; `pending_polls`
is consumed (reset to zero) by the tick. -/
theorem poll_pacing_amended (i : AuthTickIn) (hIdle : i.isIdle = false) :
    (authPollTick i).sent =
      min (max (if i.hasReadyStream && !i.flowBlocked then 0
                else i.target - i.inflightPackets) i.pendingPolls) i.burstMax ∧
    (authPollTick i).pendingPolls = 0 := by
  refine ⟨?_, ?_⟩ <;>
    · simp [authPollTick, hIdle]
      split_ifs <;> dsimp only <;> omega

/-- C7 witness: a non-idle tick with pacing deficit 3 and demand 1,
capped by a burst of 2. -/
theorem poll_pacing_amended_witness :
    (authPollTick pacedTick).sent =
      min (max (if pacedTick.hasReadyStream && !pacedTick.flowBlocked then 0
                else pacedTick.target - pacedTick.inflightPackets)
           pacedTick.pendingPolls) pacedTick.burstMax ∧
    (authPollTick pacedTick).pendingPolls = 0 :=
  poll_pacing_amended pacedTick rfl

/-- C8: idleness means no stream activity for two seconds (with idle
polling configured); on an idle authoritative tick polls are fully
suppressed while less than the idle interval elapsed since the last
idle poll, and exactly one poll is sent (stamping the idle-poll clock)
once the interval has elapsed and there is any deficit or demand;
recursive resolvers send `min pending_polls burst` with no idle gate. -/
theorem idle_throttle_gate (i : AuthTickIn)
    (interval now lastActive pending burst : Nat)
    (hIdle : i.isIdle = true) :
    (computeIsIdle interval now lastActive = true ↔
      0 < interval ∧ IDLE_THRESHOLD_US ≤ now - lastActive) ∧
    (i.now - i.lastIdlePollAt < i.idlePollIntervalUs →
      (authPollTick i).sent = 0 ∧
      (authPollTick i).lastIdlePollAt = i.lastIdlePollAt) ∧
    (i.idlePollIntervalUs ≤ i.now - i.lastIdlePollAt →
      0 < max (if i.hasReadyStream && !i.flowBlocked then 0
               else i.target - i.inflightPackets) i.pendingPolls →
      1 ≤ i.burstMax →
      (authPollTick i).sent = 1 ∧ (authPollTick i).lastIdlePollAt = i.now) ∧
    (recursivePollTick pending burst).1 = min pending burst := by
  refine ⟨?_, ?_, ?_, ?_⟩
  · simp [computeIsIdle]
  · intro hlt
    simp [authPollTick, hIdle, hlt]
    split_ifs <;> dsimp only <;> omega
  · intro hge hpos hburst
    simp [authPollTick, hIdle, Nat.not_lt.mpr hge]
    split_ifs <;> simp_all
  · unfold recursivePollTick
    split_ifs <;> dsimp only <;> omega

/-- C8 witness: an idle tick inside the interval sends nothing; the
same tick after the interval sends exactly one poll; a recursive
resolver with demand 3 and burst 2 sends 2. -/
theorem idle_throttle_gate_witness :
    ((authPollTick idleTickEarly).sent = 0 ∧
     (authPollTick idleTickEarly).lastIdlePollAt = idleTickEarly.lastIdlePollAt) ∧
    ((authPollTick idleTickDue).sent = 1 ∧
     (authPollTick idleTickDue).lastIdlePollAt = idleTickDue.now) ∧
    (recursivePollTick 3 2).1 = min 3 2 :=
  ⟨(idle_throttle_gate idleTickEarly 1 1 1 3 2 rfl).2.1 (by decide),
   (idle_throttle_gate idleTickDue 1 1 1 3 2 rfl).2.2.1 (by decide) (by decide)
     (by decide),
   (idle_throttle_gate idleTickDue 1 1 1 3 2 rfl).2.2.2⟩

/-- C9: the reconnect delay sequence is `250 ms` doubled each attempt
and capped at `5 s` (hence always within `[250 ms, 5 s]`); an attempt
that reached Ready reset its delay to the minimum; the back-off sleep
runs in chunks of at most 100 ms that cover the whole delay, with a
shutdown check before every chunk, so a shutdown raised during the
sleep is observed within 100 ms. -/
theorem reconnect_backoff_bounds (k d remaining elapsed shutdownAt : Nat)
    (hd : RECONNECT_SLEEP_MIN_MS ≤ d) (he : elapsed ≤ shutdownAt) :
    reconnectDelaySeq k =
      min (RECONNECT_SLEEP_MIN_MS * 2 ^ k) RECONNECT_SLEEP_MAX_MS ∧
    RECONNECT_SLEEP_MIN_MS ≤ reconnectDelaySeq k ∧
    reconnectDelaySeq k ≤ RECONNECT_SLEEP_MAX_MS ∧
    (attemptBackoff true d).1 = RECONNECT_SLEEP_MIN_MS ∧
    RECONNECT_SLEEP_MIN_MS ≤ (attemptBackoff false d).1 ∧
    (attemptBackoff false d).2 = min (2 * d) RECONNECT_SLEEP_MAX_MS ∧
    (∀ c ∈ backoffChunks remaining, c ≤ 100) ∧
    (backoffChunks remaining).sum = remaining ∧
    backoffObserve remaining elapsed shutdownAt ≤ shutdownAt + 100 := by
  have hpow : (1 : Nat) ≤ 2 ^ k := Nat.one_le_two_pow
  have hseq := reconnectDelaySeq_eq k
  refine ⟨hseq, ?_, ?_, rfl, hd, rfl, (backoffChunks_spec remaining).1,
    (backoffChunks_spec remaining).2, backoffObserve_le remaining elapsed shutdownAt he⟩
  · rw [hseq]
    simp only [RECONNECT_SLEEP_MIN_MS, RECONNECT_SLEEP_MAX_MS] at *
    omega
  · rw [hseq]
    simp only [RECONNECT_SLEEP_MIN_MS, RECONNECT_SLEEP_MAX_MS] at *
    omega

/-- C9 witness: the third delay is 1 s, chunks of a 250 ms sleep, and a
shutdown raised 120 ms into a 250 ms back-off observed by 220 ms. -/
theorem reconnect_backoff_bounds_witness :
    reconnectDelaySeq 2 = min (RECONNECT_SLEEP_MIN_MS * 2 ^ 2) RECONNECT_SLEEP_MAX_MS ∧
    (∀ c ∈ backoffChunks 250, c ≤ 100) ∧
    (backoffChunks 250).sum = 250 ∧
    backoffObserve 250 0 120 ≤ 120 + 100 :=
  ⟨(reconnect_backoff_bounds 2 250 250 0 120 (by decide) (by decide)).1,
   (reconnect_backoff_bounds 2 250 250 0 120 (by decide) (by decide)).2.2.2.2.2.2.1,
   (reconnect_backoff_bounds 2 250 250 0 120 (by decide) (by decide)).2.2.2.2.2.2.2.1,
   (reconnect_backoff_bounds 2 250 250 0 120 (by decide) (by decide)).2.2.2.2.2.2.2.2⟩

/-- C2: for every stream the queue never exceeds `MAX_QUEUED_BYTES`
(the bound is preserved by every lifecycle event and by the engine); an
incoming chunk that would exceed it makes the engine return overflow,
latch `discarding`, freeze the queue and emit `stop_sending`, after
which the stream stays registered in the table without an abort; over
any sequence of chunks at most one `stop_sending` is issued; and on a
discarding stream subsequent peer bytes advance `consumed_offset` while
`queued_bytes` does not grow. -/
theorem backpressure_overflow_latch (cfg : StreamCfg) (st : ClientStream)
    (fl : FlowControlState) (n reserve maxQueued : Nat)
    (enqueueOk consumeOk : Bool) (ev : StreamEvent) (hooks : Hooks)
    (chunks : List Nat)
    (hst : st.flow.queued_bytes ≤ cfg.maxQueuedBytes)
    (hfl : fl.queued_bytes ≤ maxQueued) :
    (stepStream cfg st ev hooks).1.flow.queued_bytes ≤ cfg.maxQueuedBytes ∧
    (handle_stream_receive fl n reserve maxQueued enqueueOk consumeOk).1.queued_bytes
      ≤ maxQueued ∧
    (fl.discarding = false → maxQueued < fl.queued_bytes + n →
      handle_stream_receive fl n reserve maxQueued enqueueOk consumeOk =
        ({ fl with discarding := true, stop_sending_sent := true },
         { stopSending := true, consumedTo := none }, ReceiveResult.overflow)) ∧
    (st.flow.discarding = false → cfg.maxQueuedBytes < st.flow.queued_bytes + n →
      (stepStream cfg st (StreamEvent.peerData n false) hooks).2.1 = false ∧
      (stepStream cfg st (StreamEvent.peerData n false) hooks).2.2.stopSending =
        true ∧
      (stepStream cfg st (StreamEvent.peerData n false) hooks).2.2.abortSent =
        false) ∧
    (runChunks reserve maxQueued enqueueOk consumeOk fl chunks).2 ≤ 1 ∧
    (fl.discarding = true → 0 < n →
      (handle_stream_receive fl n reserve maxQueued enqueueOk true).1.queued_bytes =
        fl.queued_bytes ∧
      (handle_stream_receive fl n reserve maxQueued enqueueOk true).1.rx_bytes =
        fl.rx_bytes + n ∧
      (handle_stream_receive fl n reserve maxQueued enqueueOk true).1.consumed_offset
        = max fl.consumed_offset
            (reserve_target_offset (fl.rx_bytes + n) fl.queued_bytes fl.fin_offset
              reserve)) := by
  refine ⟨step_queued_le cfg st ev hooks hst,
    receive_queued_le fl n reserve maxQueued enqueueOk consumeOk hfl,
    fun hd hov =>
      receive_overflow_eq fl n reserve maxQueued enqueueOk consumeOk hd hfl hov,
    fun hd hov => ?_,
    (runChunks_stop_le_one reserve maxQueued enqueueOk consumeOk chunks fl).2,
    fun hd hn => ?_⟩
  · have h := overflow_keeps_stream cfg st n hooks hd hst hov
    exact ⟨h.1, h.2.1, h.2.2.1⟩
  · have h := receive_discarding_advance fl n reserve maxQueued enqueueOk hd hn
    exact ⟨h.2.1, h.2.2.1, h.2.2.2.1⟩

/-- C2 witness: a stream with 100 bytes queued under a 1 MiB cap keeps
its bound across an event, and a chunk sequence that overflows a 200
byte cap at its second chunk issues at most one `stop_sending`. -/
theorem backpressure_overflow_latch_witness :
    (stepStream witnessCfg midTransferStream (StreamEvent.peerData 0 false)
        okHooks).1.flow.queued_bytes ≤ witnessCfg.maxQueuedBytes ∧
    (runChunks 0 200 true true midTransferStream.flow [150, 100, 50]).2 ≤ 1 :=
  ⟨(backpressure_overflow_latch witnessCfg midTransferStream midTransferStream.flow
      0 0 200 true true (StreamEvent.peerData 0 false) okHooks [150, 100, 50]
      (by decide) (by decide)).1,
   (backpressure_overflow_latch witnessCfg midTransferStream midTransferStream.flow
      0 0 200 true true (StreamEvent.peerData 0 false) okHooks [150, 100, 50]
      (by decide) (by decide)).2.2.2.2.1⟩

/-- C10: peer fin is a pure receive-side event: on a non-discarding
stream with the receive half open, an open local writer channel,
succeeding external calls and room for the chunk, `handle_stream_data`
with fin records `fin_offset = rx_bytes` when unset (keeping it when
set), moves `recv_state` to `FinReceived`, enqueues a fin to the local
TCP writer, and changes nothing else: send state, local read half and
`tx_bytes` are untouched, nothing is aborted, and the stream stays in
the table because its send half is still open. -/
theorem peer_fin_receive_side (cfg : StreamCfg) (st : ClientStream) (n : Nat)
    (hooks : Hooks)
    (hdisc : st.flow.discarding = false)
    (hrecv : st.recv_state = StreamRecvState.Open)
    (hsend : st.send_state.is_closed = false)
    (hw : st.writeChannelOpen = true)
    (hc : hooks.consumeOk = true)
    (hq : st.flow.queued_bytes + n ≤ cfg.maxQueuedBytes) :
    (stepStream cfg st (StreamEvent.peerData n true) hooks).2.1 = false ∧
    (stepStream cfg st (StreamEvent.peerData n true) hooks).1.recv_state =
      StreamRecvState.FinReceived ∧
    (st.flow.fin_offset = none →
      (stepStream cfg st (StreamEvent.peerData n true) hooks).1.flow.fin_offset =
        some (stepStream cfg st (StreamEvent.peerData n true) hooks).1.flow.rx_bytes) ∧
    (st.flow.fin_offset ≠ none →
      (stepStream cfg st (StreamEvent.peerData n true) hooks).1.flow.fin_offset =
        st.flow.fin_offset) ∧
    (stepStream cfg st (StreamEvent.peerData n true) hooks).1.send_state =
      st.send_state ∧
    (stepStream cfg st (StreamEvent.peerData n true) hooks).1.hasDataRx =
      st.hasDataRx ∧
    (stepStream cfg st (StreamEvent.peerData n true) hooks).1.tx_bytes =
      st.tx_bytes ∧
    (stepStream cfg st (StreamEvent.peerData n true) hooks).2.2.finToWriter = true ∧
    (stepStream cfg st (StreamEvent.peerData n true) hooks).2.2.abortSent = false := by
  simp only [stepStream, handleStreamDataEntry, hw, hc]
  rcases hR : handle_stream_receive st.flow n cfg.reserveBytes cfg.maxQueuedBytes
      true true with ⟨fl, eff, res⟩
  have hchar := receive_ok_characterization st.flow n cfg.reserveBytes
    cfg.maxQueuedBytes hdisc hq
  rw [hR] at hchar
  obtain ⟨hres, hfd, hrx, hqd, hfo, hstop⟩ := hchar
  subst hres
  rcases hcase : st.flow.fin_offset with _ | f <;>
    simp_all [StreamSendState.is_closed] <;>
    cases hsd : st.send_state <;> simp_all

/-- C10 witness: a fin carrying 5 final bytes on a healthy mid-transfer
stream. -/
theorem peer_fin_receive_side_witness :
    (stepStream witnessCfg midTransferStream (StreamEvent.peerData 5 true)
      okHooks).2.1 = false ∧
    (stepStream witnessCfg midTransferStream (StreamEvent.peerData 5 true)
      okHooks).1.recv_state = StreamRecvState.FinReceived ∧
    (stepStream witnessCfg midTransferStream (StreamEvent.peerData 5 true)
      okHooks).1.send_state = midTransferStream.send_state ∧
    (stepStream witnessCfg midTransferStream (StreamEvent.peerData 5 true)
      okHooks).2.2.finToWriter = true :=
  ⟨(peer_fin_receive_side witnessCfg midTransferStream 5 okHooks (by decide)
      (by decide) (by decide) (by decide) (by decide) (by decide)).1,
   (peer_fin_receive_side witnessCfg midTransferStream 5 okHooks (by decide)
      (by decide) (by decide) (by decide) (by decide) (by decide)).2.1,
   (peer_fin_receive_side witnessCfg midTransferStream 5 okHooks (by decide)
      (by decide) (by decide) (by decide) (by decide) (by decide)).2.2.2.2.1,
   (peer_fin_receive_side witnessCfg midTransferStream 5 okHooks (by decide)
      (by decide) (by decide) (by decide) (by decide) (by decide)).2.2.2.2.2.2.2.1⟩

/-- C1 counterexample: a peer fin on a discarding (overflow-latched)
stream removes it from the table although both halves are still open
and no reset is involved: `recv_state` is `Open`, `send_state` is
`Open`, yet `handle_stream_data` with fin drops the entry without any
abort, refuting the claimed removal iff. -/
theorem half_close_claim_counterexample :
    (stepStream witnessCfg discardingOpenStream (StreamEvent.peerData 0 true)
      okHooks).2.1 = true ∧
    discardingOpenStream.recv_state.is_closed = false ∧
    discardingOpenStream.send_state.is_closed = false ∧
    (stepStream witnessCfg discardingOpenStream (StreamEvent.peerData 0 true)
      okHooks).2.2.abortSent = false := by decide

/-- C1 amended: a stream-table entry is removed by an event iff the
event is a peer reset / stop-sending, or the stream is aborted (a fatal
hook failure), or a peer fin arrives on a discarding stream, or the
entry satisfies the closed-and-drained condition
(`recv_state = FinReceived ∧ send_state = FinQueued ∧ queued_bytes = 0`)
after the event; in particular no event removes a non-discarding,
non-aborted stream while either half is open or bytes are queued, and a
non-discarding entry satisfying the condition after an event never
stays in the table. -/
theorem half_close_removal_amended (cfg : StreamCfg) (st : ClientStream)
    (ev : StreamEvent) (hooks : Hooks)
    (hcd : closedDrained st = false) :
    ((stepStream cfg st ev hooks).2.1 = true →
      ev = StreamEvent.peerReset ∨
      (stepStream cfg st ev hooks).2.2.abortSent = true ∨
      ((∃ n, ev = StreamEvent.peerData n true) ∧
        (stepStream cfg st ev hooks).1.flow.discarding = true) ∨
      closedDrained (stepStream cfg st ev hooks).1 = true) ∧
    ((stepStream cfg st ev hooks).2.2.abortSent = false →
      ev ≠ StreamEvent.peerReset →
      (stepStream cfg st ev hooks).1.flow.discarding = false →
      closedDrained (stepStream cfg st ev hooks).1 = false →
      (stepStream cfg st ev hooks).2.1 = false) ∧
    (closedDrained (stepStream cfg st ev hooks).1 = true →
      (stepStream cfg st ev hooks).1.flow.discarding = false →
      (stepStream cfg st ev hooks).2.2.abortSent = false →
      (stepStream cfg st ev hooks).2.1 = true) := by
  cases ev with
  | peerData n fin =>
      rcases hR : handle_stream_receive st.flow n cfg.reserveBytes cfg.maxQueuedBytes
          st.writeChannelOpen hooks.consumeOk with ⟨fl, eff, res⟩
      simp only [stepStream, handleStreamDataEntry, hR, closedDrained]
      cases fin <;> cases res <;>
        cases hfd : fl.discarding <;>
        cases hrecv : st.recv_state <;>
        cases hw : st.writeChannelOpen <;>
        rcases hfo : fl.fin_offset with _ | f <;>
        simp_all [StreamRecvState.is_closed, StreamSendState.is_closed]
  | streamClosed =>
      cases haok : hooks.addToStreamOk <;>
        cases hsend : st.send_state <;>
        simp_all [stepStream, streamClosedEntry, closedDrained,
          StreamSendState.can_queue_fin, StreamSendState.is_closed,
          StreamRecvState.is_closed]
  | writeDrained bytes =>
      cases hd : st.flow.discarding with
      | true => simp [stepStream, writeDrainedEntry, hd, closedDrained]
      | false =>
        cases hms : cfg.multiStream with
        | true => simp_all [stepStream, writeDrainedEntry, closedDrained]
        | false =>
          simp only [stepStream, writeDrainedEntry, consume_stream_data,
            closedDrained, hd, hms, Bool.false_eq_true, if_false]
          split_ifs <;> simp_all
  | peerReset => simp [stepStream]

/-- C1 amended witness: the drained-both-halves state is removed by a
final `StreamWriteDrained`, applied at a concrete stream with the fin
exchanged in both directions and 7 bytes left to drain. -/
theorem half_close_removal_amended_witness :
    (stepStream witnessCfg
      { writeChannelOpen := true, hasDataRx := false, tx_bytes := 20,
        recv_state := StreamRecvState.FinReceived,
        send_state := StreamSendState.FinQueued,
        flow := { rx_bytes := 7, consumed_offset := 0, queued_bytes := 7,
                  fin_offset := some 7, discarding := false,
                  stop_sending_sent := false } }
      (StreamEvent.writeDrained 7) okHooks).2.1 = true :=
  (half_close_removal_amended witnessCfg
    { writeChannelOpen := true, hasDataRx := false, tx_bytes := 20,
      recv_state := StreamRecvState.FinReceived,
      send_state := StreamSendState.FinQueued,
      flow := { rx_bytes := 7, consumed_offset := 0, queued_bytes := 7,
                fin_offset := some 7, discarding := false,
                stop_sending_sent := false } }
    (StreamEvent.writeDrained 7) okHooks (by decide)).2.2
    (by decide) (by decide) (by decide)

end SlipNet
